import Mathlib

/-!
# Central-Management-System: verification of the OCPP 1.6 protocol spec claims

Shallow embedding of the repository's three OCPP components:

* `Central` models the server-side handlers of `src/central_system.py`
  (class `CentralSystem`): stateless per-action handlers that build a
  `call_result` payload from the request's fields.
* `Csms` models the charge-point client of `src/csms.py`
  (class `MyChargePoint`): the per-connection mutable record
  `(transaction_id, connector_id, status)` and the methods/handlers that
  update it.  The client's `await self.call(request)` is modelled as
  invoking the repository's own server handler from `Central`
  (the counterparty this repository runs, per the claim sources).
* `OcppApi` models the FastAPI WebSocket server of `src/ocpp_api.py`:
  the JSON frame, the per-message processing pipeline of
  `websocket_endpoint` (broadcast relay, envelope checks, pydantic payload
  validation, dispatch through the per-action handlers) and the
  `except`-branch error reply.

Machine-level side effects (logging, sockets, TLS) have no state visible to
the claims and are dropped; everything else follows the source line by line.
-/

namespace Ocpp

/-- A JSON value as produced by Python's `json.loads` on an OCPP-J text
frame.  Numbers are modelled as integers (every number the claims touch is
an integer on the wire). -/
inductive Json where
  | null : Json
  | bool (b : Bool) : Json
  | num (n : Int) : Json
  | str (s : String) : Json
  | arr (elems : List Json) : Json
  | obj (fields : List (String × Json)) : Json

/-- `ocpp.v16.enums.ChargePointStatus`. -/
inductive ChargePointStatus where
  | available | preparing | charging | suspendedEVSE | suspendedEV
  | finishing | reserved | unavailable | faulted
deriving DecidableEq

/-- `ocpp.v16.enums.AuthorizationStatus`. -/
inductive AuthorizationStatus where
  | accepted | blocked | expired | invalid | concurrentTx
deriving DecidableEq

/-- `ocpp.v16.enums.ResetType`. -/
inductive ResetType where
  | hard | soft
deriving DecidableEq

/-- `ocpp.v16.enums.ResetStatus`. -/
inductive ResetStatus where
  | accepted | rejected
deriving DecidableEq

/-- `ocpp.v16.enums.AvailabilityType`. -/
inductive AvailabilityType where
  | inoperative | operative
deriving DecidableEq

/-- `ocpp.v16.enums.AvailabilityStatus`. -/
inductive AvailabilityStatus where
  | accepted | rejected | scheduled
deriving DecidableEq

/-- `ocpp.v16.enums.RemoteStartStopStatus`. -/
inductive RemoteStartStopStatus where
  | accepted | rejected
deriving DecidableEq

/-- Python `datetime.datetime` as used by `datetime.utcnow()`: the fields
`isoformat()` prints.  A real `datetime` always satisfies `ValidDT` below. -/
structure DateTime where
  year : Nat
  month : Nat
  day : Nat
  hour : Nat
  minute : Nat
  second : Nat
  microsecond : Nat
deriving DecidableEq

/-- The field ranges Python's `datetime` constructor enforces. -/
def ValidDT (d : DateTime) : Prop :=
  0 < d.year ∧ d.year ≤ 9999 ∧ 0 < d.month ∧ d.month ≤ 12 ∧
  0 < d.day ∧ d.day ≤ 31 ∧ d.hour < 24 ∧ d.minute < 60 ∧
  d.second < 60 ∧ d.microsecond < 1000000

instance (d : DateTime) : Decidable (ValidDT d) := by
  unfold ValidDT; infer_instance

/-- The ASCII digit character for `n < 10`. -/
def digitChar (n : Nat) : Char := Char.ofNat (48 + n)

/-- Two-digit zero-padded decimal rendering (the `%02d` of
`datetime.isoformat`; faithful for the in-range field values of a real
`datetime`). -/
def pad2 (n : Nat) : List Char := [digitChar (n / 10 % 10), digitChar (n % 10)]

/-- Four-digit zero-padded decimal rendering (`%04d`, the year). -/
def pad4 (n : Nat) : List Char :=
  [digitChar (n / 1000 % 10), digitChar (n / 100 % 10),
   digitChar (n / 10 % 10), digitChar (n % 10)]

/-- Six-digit zero-padded decimal rendering (`%06d`, the microseconds). -/
def pad6 (n : Nat) : List Char :=
  [digitChar (n / 100000 % 10), digitChar (n / 10000 % 10),
   digitChar (n / 1000 % 10), digitChar (n / 100 % 10),
   digitChar (n / 10 % 10), digitChar (n % 10)]

/-- The characters of `datetime.isoformat()`:
`YYYY-MM-DDTHH:MM:SS` followed by `.ffffff` exactly when the microsecond
field is non-zero, as Python prints it. -/
def isoChars (d : DateTime) : List Char :=
  pad4 d.year ++ '-' :: pad2 d.month ++ '-' :: pad2 d.day ++
  'T' :: pad2 d.hour ++ ':' :: pad2 d.minute ++ ':' :: pad2 d.second ++
  (if d.microsecond = 0 then [] else '.' :: pad6 d.microsecond)

/-- `datetime.isoformat()`: the string the handlers put into
`currentTime` / `current_time`. -/
def isoformat (d : DateTime) : String := String.mk (isoChars d)

/-- The tail of an ISO-8601 timestamp after the seconds: nothing, or a dot
and six fraction digits. -/
def isoTail (rest : List Char) : Bool :=
  match rest with
  | [] => true
  | ['.', f1, f2, f3, f4, f5, f6] =>
      f1.isDigit && f2.isDigit && f3.isDigit && f4.isDigit &&
      f5.isDigit && f6.isDigit
  | _ => false

/-- Checker for the ISO-8601 combined date-time shape
`DDDD-DD-DDTDD:DD:DD[.DDDDDD]` that `datetime.isoformat` emits. -/
def isISO8601 (s : String) : Bool :=
  match s.data with
  | y1 :: y2 :: y3 :: y4 :: '-' :: m1 :: m2 :: '-' :: d1 :: d2 :: 'T' ::
    h1 :: h2 :: ':' :: n1 :: n2 :: ':' :: s1 :: s2 :: rest =>
      y1.isDigit && y2.isDigit && y3.isDigit && y4.isDigit &&
      m1.isDigit && m2.isDigit && d1.isDigit && d2.isDigit &&
      h1.isDigit && h2.isDigit && n1.isDigit && n2.isDigit &&
      s1.isDigit && s2.isDigit && isoTail rest
  | _ => false

end Ocpp

namespace Central

open Ocpp

/-- Wire result of `call_result.StartTransaction(...)` as built by
`CentralSystem.on_start_transaction` (src/central_system.py lines 262-272):
the fields the handler fills. -/
structure StartTransactionResult where
  transaction_id : Int
  id_tag_info_status : AuthorizationStatus
deriving DecidableEq

/-- Wire result of `call_result.StopTransaction(...)` as built by
`CentralSystem.on_stop_transaction` (src/central_system.py lines 283-292). -/
structure StopTransactionResult where
  id_tag_info_status : AuthorizationStatus
deriving DecidableEq

/-- `CentralSystem.on_start_transaction` (src/central_system.py 262-272):
ignores every request field and any state, always answering
`transaction_id=1` with `id_tag_info` status `Accepted`. -/
def on_start_transaction (connector_id : Int) (id_tag : String)
    (meter_start : Int) (timestamp : String) : StartTransactionResult :=
  { transaction_id := 1
    id_tag_info_status := AuthorizationStatus.accepted }

/-- `CentralSystem.on_stop_transaction` (src/central_system.py 283-292):
ignores every request field, always answering `id_tag_info` status
`Accepted`. -/
def on_stop_transaction (transaction_id : Int) (id_tag : String)
    (meter_stop : Int) (timestamp : String) : StopTransactionResult :=
  { id_tag_info_status := AuthorizationStatus.accepted }

/-- Wire result of `call_result.Heartbeat(...)` as built by
`CentralSystem.on_heartbeat` (src/central_system.py 176-185). -/
structure HeartbeatResult where
  current_time : String
deriving DecidableEq

/-- `CentralSystem.on_heartbeat` (src/central_system.py 176-185):
answers with `datetime.utcnow().isoformat()`. -/
def on_heartbeat (now : DateTime) : HeartbeatResult :=
  { current_time := isoformat now }

/-- One entry of the `configuration_key` list of
`call_result.GetConfiguration`. -/
structure ConfigEntry where
  key : String
  value : String
deriving DecidableEq

/-- Python truthiness of the `key` argument of `on_get_configuration`
(`None` or `[]` are falsy, a non-empty list is truthy). -/
def pyTruthyKey : Option (List String) → Bool
  | none => false
  | some [] => false
  | some (_ :: _) => true

/-- `CentralSystem.on_get_configuration` (src/central_system.py 142-152):
`configuration_key = [{"key": "example_key", "value": "example_value"}]
if not key else []` — the example entry when the filter is absent or
empty, the empty list when a non-empty filter is supplied. -/
def on_get_configuration (key : Option (List String)) : List ConfigEntry :=
  if pyTruthyKey key then []
  else [{ key := "example_key", value := "example_value" }]

end Central

namespace Csms

open Ocpp

/-- The per-connection mutable state of `MyChargePoint.__init__`
(src/csms.py 27-32): `self.transaction_id = None`,
`self.connector_id = 1`, `self.status = ChargePointStatus.available`. -/
structure CPState where
  transaction_id : Option Int
  connector_id : Int
  status : ChargePointStatus
deriving DecidableEq

/-- The state `MyChargePoint.__init__` builds. -/
def initState : CPState :=
  { transaction_id := none, connector_id := 1
    status := ChargePointStatus.available }

/-- `MyChargePoint.start_transaction` (src/csms.py 90-123).  Returns the
new state and the method's return value (`None` or the transaction id).
The guard refuses to send when the connector is not `available`; otherwise
the StartTransaction call reaches the repository's server handler
`Central.on_start_transaction`, and on an `Accepted` `id_tag_info` the
client records the returned transaction id and moves to `charging`. -/
def start_transaction (st : CPState) (id_tag : String) (ts : String) :
    CPState × Option Int :=
  if st.status ≠ ChargePointStatus.available then (st, none)
  else
    let resp := Central.on_start_transaction st.connector_id id_tag 0 ts
    if resp.id_tag_info_status = AuthorizationStatus.accepted then
      ({ st with transaction_id := some resp.transaction_id
                 status := ChargePointStatus.charging },
       some resp.transaction_id)
    else (st, none)

/-- `MyChargePoint.stop_transaction` (src/csms.py 143-167): sends
StopTransaction with the given id (no matching check of its own) to
`Central.on_stop_transaction`; on an `Accepted` `id_tag_info` it clears
`transaction_id` and returns the status to `available`. -/
def stop_transaction (st : CPState) (transaction_id : Int) (id_tag : String)
    (ts : String) : CPState :=
  let resp := Central.on_stop_transaction transaction_id id_tag 100 ts
  if resp.id_tag_info_status = AuthorizationStatus.accepted then
    { st with transaction_id := none, status := ChargePointStatus.available }
  else st

/-- `MyChargePoint.on_reset` (src/csms.py 181-187): on `Soft` it sets the
status to `available` (without touching `transaction_id`); on any other
type it changes nothing; the response is always `Accepted`. -/
def on_reset (st : CPState) (type : ResetType) : CPState × ResetStatus :=
  if type = ResetType.soft then
    ({ st with status := ChargePointStatus.available }, ResetStatus.accepted)
  else (st, ResetStatus.accepted)

/-- `MyChargePoint.on_change_availability` (src/csms.py 189-197): sets the
status from the requested type unconditionally (no charging check, no
deferral) and answers `Accepted`. -/
def on_change_availability (st : CPState) (connector_id : Int)
    (type : AvailabilityType) : CPState × AvailabilityStatus :=
  if type = AvailabilityType.operative then
    ({ st with status := ChargePointStatus.available },
     AvailabilityStatus.accepted)
  else
    ({ st with status := ChargePointStatus.unavailable },
     AvailabilityStatus.accepted)

/-- Python truthiness of `start_transaction`'s return value in
`'Accepted' if transaction_id else 'Rejected'` (src/csms.py 224):
`None` and `0` are falsy. -/
def pyTruthyTxn : Option Int → Bool
  | none => false
  | some n => n ≠ 0

/-- `MyChargePoint.on_remote_start_transaction` (src/csms.py 220-224). -/
def on_remote_start_transaction (st : CPState) (id_tag : String)
    (ts : String) : CPState × RemoteStartStopStatus :=
  let (st', txn) := start_transaction st id_tag ts
  (st', if pyTruthyTxn txn then RemoteStartStopStatus.accepted
        else RemoteStartStopStatus.rejected)

/-- `MyChargePoint.on_remote_stop_transaction` (src/csms.py 226-232):
only a matching `transaction_id` is accepted and stopped; otherwise the
state is untouched and the response is `Rejected`. -/
def on_remote_stop_transaction (st : CPState) (transaction_id : Int)
    (ts : String) : CPState × RemoteStartStopStatus :=
  if st.transaction_id = some transaction_id then
    (stop_transaction st transaction_id "remote_stop" ts,
     RemoteStartStopStatus.accepted)
  else (st, RemoteStartStopStatus.rejected)

/-- The spec's per-connector record invariant: `transactionId` is set iff
the status is `Charging`. -/
def Inv (st : CPState) : Prop :=
  st.transaction_id ≠ none ↔ st.status = ChargePointStatus.charging

instance (st : CPState) : Decidable (Inv st) := by
  unfold Inv; infer_instance

end Csms

namespace OcppApi

open Ocpp

/-- The keys of the `request_model` dictionary in `websocket_endpoint`
(src/ocpp_api.py 376-404): the actions with a registered pydantic request
model. -/
def supportedActions : List String :=
  ["Authorize", "BootNotification", "CancelReservation",
   "ChangeAvailability", "ChangeConfiguration", "ClearCache",
   "ClearChargingProfile", "DataTransfer", "DiagnosticsStatusNotification",
   "FirmwareStatusNotification", "GetConfiguration", "GetDiagnostics",
   "GetLocalListVersion", "Heartbeat", "MeterValues",
   "RemoteStartTransaction", "RemoteStopTransaction", "ReserveNow",
   "Reset", "SendLocalList", "SetChargingProfile", "StartTransaction",
   "StatusNotification", "StopTransaction", "TriggerMessage",
   "UnlockConnector", "UpdateFirmware"]

/-- Field access on a JSON object (a pydantic model reads the payload's
keys; a JSON object's keys are strings). -/
def lookupField (payload : Json) (k : String) : Option Json :=
  match payload with
  | Json.obj kvs => kvs.lookup k
  | _ => none

/-- A required `str` field with a `max_length` bound. -/
def reqStr (p : Json) (k : String) (maxLen : Nat) : Bool :=
  match lookupField p k with
  | some (Json.str s) => s.length ≤ maxLen
  | _ => false

/-- A required `str` field with no length bound. -/
def reqStrAny (p : Json) (k : String) : Bool :=
  match lookupField p k with
  | some (Json.str _) => true
  | _ => false

/-- An `Optional[str]` field with a `max_length` bound. -/
def optStr (p : Json) (k : String) (maxLen : Nat) : Bool :=
  match lookupField p k with
  | none => true
  | some Json.null => true
  | some (Json.str s) => s.length ≤ maxLen
  | _ => false

/-- An `Optional[str]` field with no length bound. -/
def optStrAny (p : Json) (k : String) : Bool :=
  match lookupField p k with
  | none => true
  | some Json.null => true
  | some (Json.str _) => true
  | _ => false

/-- A required `int` field with a `ge` bound. -/
def reqIntGe (p : Json) (k : String) (lo : Int) : Bool :=
  match lookupField p k with
  | some (Json.num n) => lo ≤ n
  | _ => false

/-- An `Optional[int]` field with a `ge` bound. -/
def optIntGe (p : Json) (k : String) (lo : Int) : Bool :=
  match lookupField p k with
  | none => true
  | some Json.null => true
  | some (Json.num n) => lo ≤ n
  | _ => false

/-- A required enum-typed field: the value must be one of the enum's wire
strings. -/
def reqEnum (p : Json) (k : String) (vals : List String) : Bool :=
  match lookupField p k with
  | some (Json.str s) => vals.contains s
  | _ => false

/-- An optional enum-typed field. -/
def optEnum (p : Json) (k : String) (vals : List String) : Bool :=
  match lookupField p k with
  | none => true
  | some Json.null => true
  | some (Json.str s) => vals.contains s
  | _ => false

/-- An `Optional[List[str]]` field (`GetConfigurationRequest.key`). -/
def optStrList (p : Json) (k : String) : Bool :=
  match lookupField p k with
  | none => true
  | some Json.null => true
  | some (Json.arr xs) =>
      xs.all fun x => match x with | Json.str _ => true | _ => false
  | _ => false

/-- `MeterValueSample` (src/ocpp_api.py 102-104): `value: str`,
`unit: Optional[str]`. -/
def validMeterValueSample (x : Json) : Bool :=
  match x with
  | Json.obj _ => reqStrAny x "value" && optStrAny x "unit"
  | _ => false

/-- `MeterValue` (src/ocpp_api.py 106-108): `timestamp: str`,
`sampledValue: List[MeterValueSample]`. -/
def validMeterValue (x : Json) : Bool :=
  match x with
  | Json.obj _ =>
      reqStrAny x "timestamp" &&
      (match lookupField x "sampledValue" with
       | some (Json.arr xs) => xs.all validMeterValueSample
       | _ => false)
  | _ => false

/-- `AuthorizationListEntry` (src/ocpp_api.py 132-134): `idTag: str` of at
most 20 characters, `idTagInfo` optional with a required `status: str`. -/
def validAuthEntry (x : Json) : Bool :=
  match x with
  | Json.obj _ =>
      reqStr x "idTag" 20 &&
      (match lookupField x "idTagInfo" with
       | none => true
       | some Json.null => true
       | some (Json.obj kvs) => reqStrAny (Json.obj kvs) "status"
       | _ => false)
  | _ => false

/-- `ChargingSchedulePeriod` (src/ocpp_api.py 141-143):
`startPeriod: int` at least 0, `limit: float`. -/
def validSchedulePeriod (x : Json) : Bool :=
  match x with
  | Json.obj _ =>
      reqIntGe x "startPeriod" 0 &&
      (match lookupField x "limit" with
       | some (Json.num _) => true
       | _ => false)
  | _ => false

/-- `ChargingSchedule` (src/ocpp_api.py 145-147). -/
def validChargingSchedule (x : Json) : Bool :=
  match x with
  | Json.obj _ =>
      reqEnum x "chargingRateUnit" ["W", "A"] &&
      (match lookupField x "chargingSchedulePeriod" with
       | some (Json.arr xs) => xs.all validSchedulePeriod
       | _ => false)
  | _ => false

/-- `ChargingProfile` (src/ocpp_api.py 149-154). -/
def validChargingProfile (x : Json) : Bool :=
  match x with
  | Json.obj _ =>
      reqIntGe x "chargingProfileId" 1 && reqIntGe x "stackLevel" 0 &&
      reqEnum x "chargingProfilePurpose"
        ["ChargePointMaxProfile", "TxDefaultProfile", "TxProfile"] &&
      reqEnum x "chargingProfileKind" ["Absolute", "Recurring", "Relative"] &&
      (match lookupField x "chargingSchedule" with
       | some s => validChargingSchedule s
       | none => false)
  | _ => false

/-- The per-action pydantic field checks of the request models in
src/ocpp_api.py 44-188: presence and type of each (aliased) field, the
declared `ge` and `max_length` bounds and enum membership.  (Pydantic v1's
implicit numeric/string coercions are not modelled; no claim depends on
them.) -/
def fieldChecks (a : String) (p : Json) : Bool :=
  if a = "Authorize" then reqStr p "idTag" 20
  else if a = "BootNotification" then
    reqStr p "chargePointModel" 20 && reqStr p "chargePointVendor" 50 &&
    optStr p "firmwareVersion" 50
  else if a = "CancelReservation" then reqIntGe p "reservationId" 1
  else if a = "ChangeAvailability" then
    reqIntGe p "connectorId" 0 && reqEnum p "type" ["Inoperative", "Operative"]
  else if a = "ChangeConfiguration" then
    reqStr p "key" 50 && reqStr p "value" 512
  else if a = "ClearCache" then true
  else if a = "ClearChargingProfile" then
    optIntGe p "id" 1 && optIntGe p "connectorId" 0 &&
    optEnum p "chargingProfilePurpose"
      ["ChargePointMaxProfile", "TxDefaultProfile", "TxProfile"] &&
    optIntGe p "stackLevel" 0
  else if a = "DataTransfer" then
    reqStr p "vendorId" 255 && optStr p "messageId" 50 && optStr p "data" 1000
  else if a = "DiagnosticsStatusNotification" then
    reqEnum p "status" ["Idle", "Uploaded", "UploadFailed", "Uploading"]
  else if a = "FirmwareStatusNotification" then
    reqEnum p "status"
      ["Downloaded", "DownloadFailed", "Downloading", "Idle",
       "InstallationFailed", "Installing", "Installed"]
  else if a = "GetConfiguration" then optStrList p "key"
  else if a = "GetDiagnostics" then
    reqStrAny p "location" && optStrAny p "startTime" &&
    optStrAny p "stopTime" && optIntGe p "retries" 1 &&
    optIntGe p "retryInterval" 1
  else if a = "GetLocalListVersion" then true
  else if a = "Heartbeat" then true
  else if a = "MeterValues" then
    reqIntGe p "connectorId" 0 && optIntGe p "transactionId" 1 &&
    (match lookupField p "meterValue" with
     | some (Json.arr xs) => xs.all validMeterValue
     | _ => false)
  else if a = "RemoteStartTransaction" then
    reqStr p "idTag" 20 && optIntGe p "connectorId" 0
  else if a = "RemoteStopTransaction" then reqIntGe p "transactionId" 1
  else if a = "ReserveNow" then
    reqIntGe p "connectorId" 0 && reqStrAny p "expiryDate" &&
    reqStr p "idTag" 20 && reqIntGe p "reservationId" 1 &&
    optStr p "parentIdTag" 20
  else if a = "Reset" then reqEnum p "type" ["Hard", "Soft"]
  else if a = "SendLocalList" then
    reqIntGe p "listVersion" 1 &&
    reqEnum p "updateType" ["Differential", "Full"] &&
    (match lookupField p "localAuthorizationList" with
     | none => true
     | some Json.null => true
     | some (Json.arr xs) => xs.all validAuthEntry
     | _ => false)
  else if a = "SetChargingProfile" then
    reqIntGe p "connectorId" 0 &&
    (match lookupField p "csChargingProfiles" with
     | some x => validChargingProfile x
     | none => false)
  else if a = "StartTransaction" then
    reqIntGe p "connectorId" 0 && reqStr p "idTag" 20 &&
    reqIntGe p "meterStart" 0 && reqStrAny p "timestamp"
  else if a = "StatusNotification" then
    reqIntGe p "connectorId" 0 && reqStrAny p "errorCode" &&
    reqStrAny p "status"
  else if a = "StopTransaction" then
    reqIntGe p "transactionId" 1 && reqStr p "idTag" 20 &&
    reqIntGe p "meterStop" 0 && reqStrAny p "timestamp"
  else if a = "TriggerMessage" then
    reqEnum p "requestedMessage"
      ["BootNotification", "DiagnosticsStatusNotification",
       "FirmwareStatusNotification", "Heartbeat", "MeterValues",
       "StatusNotification"] &&
    optIntGe p "connectorId" 0
  else if a = "UnlockConnector" then reqIntGe p "connectorId" 1
  else if a = "UpdateFirmware" then
    reqStrAny p "location" && reqStrAny p "retrieveDate" &&
    optIntGe p "retries" 1 && optIntGe p "retryInterval" 1
  else false

/-- `request_model(**payload)` (src/ocpp_api.py 410): the payload must be
a JSON object (otherwise the double-star unpacking raises `TypeError`),
and its fields must satisfy the model's checks. -/
def validatePayload (a : String) (p : Json) : Bool :=
  match p with
  | Json.obj _ => fieldChecks a p
  | _ => false

/-- Python truthiness of a looked-up payload field (`kwargs.get('key')`
in `ChargePoint.on_get_configuration`): absent keys give `None`, and
`None`, `False`, `0`, `""`, `[]`, `{}` are falsy. -/
def jsonTruthy : Option Json → Bool
  | none => false
  | some Json.null => false
  | some (Json.bool b) => b
  | some (Json.num n) => n ≠ 0
  | some (Json.str s) => s ≠ ""
  | some (Json.arr l) => !l.isEmpty
  | some (Json.obj l) => !l.isEmpty

/-- The `configuration_key` value `ChargePoint.on_get_configuration`
(src/ocpp_api.py 253-257) builds when the `key` filter is falsy. -/
def exampleConfigJson : Json :=
  Json.arr [Json.obj [("key", Json.str "example_key"),
                      ("value", Json.str "example_value")]]

/-- A bare `{"status": "Accepted"}` CallResult payload. -/
def acceptedPayload : Json := Json.obj [("status", Json.str "Accepted")]

/-- The `@on(...)` handlers of `ChargePoint` in src/ocpp_api.py 198-340,
composed with the ocpp library's CallResult encoding (camelCase wire
fields, `None` fields omitted): the response payload for a validated
action.  The ocpp library (`ChargePoint.route_message`) is a third-party
dependency, modelled by its documented behavior: it dispatches the Call to
the matching `@on` handler and encodes the returned `call_result` dataclass
as the CallResult payload. -/
def dispatchOcppApi (a : String) (payload : Json) (now : DateTime) : Json :=
  if a = "Authorize" then
    Json.obj [("idTagInfo", Json.obj [("status", Json.str "Accepted")])]
  else if a = "BootNotification" then
    Json.obj [("currentTime", Json.str (isoformat now)),
              ("interval", Json.num 60), ("status", Json.str "Accepted")]
  else if a = "CancelReservation" then acceptedPayload
  else if a = "ChangeAvailability" then acceptedPayload
  else if a = "ChangeConfiguration" then acceptedPayload
  else if a = "ClearCache" then acceptedPayload
  else if a = "ClearChargingProfile" then acceptedPayload
  else if a = "DataTransfer" then acceptedPayload
  else if a = "DiagnosticsStatusNotification" then Json.obj []
  else if a = "FirmwareStatusNotification" then Json.obj []
  else if a = "GetConfiguration" then
    Json.obj [("configurationKey",
               if jsonTruthy (lookupField payload "key") then Json.arr []
               else exampleConfigJson)]
  else if a = "GetDiagnostics" then
    Json.obj [("fileName", Json.str "diagnostics.log")]
  else if a = "GetLocalListVersion" then
    Json.obj [("listVersion", Json.num 1)]
  else if a = "Heartbeat" then
    Json.obj [("currentTime", Json.str (isoformat now))]
  else if a = "MeterValues" then Json.obj []
  else if a = "RemoteStartTransaction" then acceptedPayload
  else if a = "RemoteStopTransaction" then acceptedPayload
  else if a = "ReserveNow" then acceptedPayload
  else if a = "Reset" then acceptedPayload
  else if a = "SendLocalList" then acceptedPayload
  else if a = "SetChargingProfile" then acceptedPayload
  else if a = "StartTransaction" then
    Json.obj [("transactionId", Json.num 1),
              ("idTagInfo", Json.obj [("status", Json.str "Accepted")])]
  else if a = "StatusNotification" then Json.obj []
  else if a = "StopTransaction" then
    Json.obj [("idTagInfo", Json.obj [("status", Json.str "Accepted")])]
  else if a = "TriggerMessage" then acceptedPayload
  else if a = "UnlockConnector" then
    Json.obj [("status", Json.str "Unlocked")]
  else if a = "UpdateFirmware" then Json.obj []
  else Json.null

/-- `message_type != 2` (src/ocpp_api.py 372): the first element must be
the JSON number 2 (a JSON string "2" or boolean does not equal `int` 2 in
Python). -/
def isNum2 : Json → Bool
  | Json.num n => n = 2
  | _ => false

/-- `str(e)` for the exception `.get(action)`-then-`raise` produces
(src/ocpp_api.py 404-407): the `ValueError` rendering for hashable action
values, the `TypeError` message for unhashable ones. -/
def actionError : Json → String
  | Json.null => "Unsupported action: None"
  | Json.bool true => "Unsupported action: True"
  | Json.bool false => "Unsupported action: False"
  | Json.num n => "Unsupported action: " ++ toString n
  | Json.str s => "Unsupported action: " ++ s
  | Json.arr _ => "unhashable type: 'list'"
  | Json.obj _ => "unhashable type: 'dict'"

/-- The body of the inner `try` of `websocket_endpoint`
(src/ocpp_api.py 366-414) after `json.loads` succeeded: `.ok` the response
frame the ocpp library returns, `.error` the `str(e)` of the exception
raised.  Step by step:
`if not isinstance(message, list) or len(message) < 3` raises;
`message_type, unique_id, action, payload = message[:4]` raises on a
3-element list; `message_type != 2` raises; an action without a request
model raises; `request_model(**payload)` raises on an invalid payload
(the pydantic `ValidationError`/`TypeError` text is abbreviated here);
otherwise `charge_point.route_message(data)` produces the CallResult
`[3, unique_id, <handler payload>]`. -/
def processParsed (message : Json) (now : DateTime) : Except String Json :=
  match message with
  | Json.arr elems =>
    if elems.length < 3 then Except.error "Invalid OCPP message format"
    else
      match elems with
      | m0 :: uid :: actionJ :: payload :: _ =>
        if isNum2 m0 = false then
          Except.error "Only CALL messages are supported"
        else
          (match actionJ with
           | Json.str a =>
             if supportedActions.contains a = false then
               Except.error (actionError (Json.str a))
             else if validatePayload a payload = false then
               Except.error ("validation error for " ++ a)
             else
               Except.ok (Json.arr [Json.num 3, uid,
                                    dispatchOcppApi a payload now])
           | other => Except.error (actionError other))
      | _ => Except.error "not enough values to unpack (expected 4, got 3)"
  | _ => Except.error "Invalid OCPP message format"

/-- The `unique_id` the current frame binds: the tuple unpacking
`message[:4]` succeeds — and so assigns `unique_id` — exactly when the
message is a JSON array of at least 4 elements. -/
def recoveredUidJ : Json → Option Json
  | Json.arr (_ :: uid :: _ :: _ :: _) => some uid
  | _ => none

/-- Same, on the `json.loads` result (`.error` = the text was not JSON,
so nothing was unpacked). -/
def recoveredUid : Except String Json → Option Json
  | Except.error _ => none
  | Except.ok m => recoveredUidJ m

/-- The `except` branch reply frame (src/ocpp_api.py 426):
`error_response = [3, unique_id, "FormationViolation",
{"message": str(e)}]` — message-type tag 3 and four elements, as the
source writes it. -/
def errorResponse (uid : Json) (msg : String) : Json :=
  Json.arr [Json.num 3, uid, Json.str "FormationViolation",
            Json.obj [("message", Json.str msg)]]

/-- What one iteration of the receive loop does to the wire. -/
inductive Outcome where
  /-- The error reply was sent to the sender only (src/ocpp_api.py 427). -/
  | reply (frame : Json) : Outcome
  /-- A response frame was produced and broadcast to every connected
  client, the sender included (src/ocpp_api.py 413-422). -/
  | broadcastResponse (frame : Json) : Outcome
  /-- No reply: evaluating `error_response` raised `NameError` because
  `unique_id` was never bound, the exception escaped the inner `try`, and
  the handler unwinds — the connection is torn down without a reply frame
  (src/ocpp_api.py 426, 433-435). -/
  | closed : Outcome

/-- The `except` branch (src/ocpp_api.py 424-427): the `unique_id`
variable holds the current frame's id if this iteration's unpacking
succeeded, else whatever an earlier frame bound; if it was never bound,
the `NameError` closes the connection. -/
def finishError (boundUid recovered : Option Json) (msg : String) : Outcome :=
  match recovered with
  | some uid => Outcome.reply (errorResponse uid msg)
  | none =>
    match boundUid with
    | some uid => Outcome.reply (errorResponse uid msg)
    | none => Outcome.closed

/-- One iteration of the `while True` receive loop of
`websocket_endpoint` for one inbound text frame, after the broadcast
relay step: `boundUid` is the value the `unique_id` variable carries over
from earlier iterations (`none` before the first binding), `inp` the
result of `json.loads` on the received text. -/
def handleFrame (boundUid : Option Json) (now : DateTime)
    (inp : Except String Json) : Outcome :=
  match inp with
  | Except.error m => finishError boundUid none m
  | Except.ok message =>
    match processParsed message now with
    | Except.ok resp => Outcome.broadcastResponse resp
    | Except.error msg => finishError boundUid (recoveredUidJ message) msg

/-- The broadcast relay (src/ocpp_api.py 356-363): for every connected
client other than the sender, try to forward the raw inbound text
unmodified; a failed send (`sendOk c = false`) is logged and the loop
continues with the next client.  Clients are identified by their position
handle; the result lists the successful deliveries in order. -/
def forwardAll : List Nat → Nat → (Nat → Bool) → String → List (Nat × String)
  | [], _, _, _ => []
  | c :: rest, sender, sendOk, raw =>
    if c ≠ sender then
      (if sendOk c then [(c, raw)] else []) ++ forwardAll rest sender sendOk raw
    else forwardAll rest sender sendOk raw

/-- One full loop iteration: the relay broadcast of the raw frame
(src/ocpp_api.py 356-363), then the parse/validate/dispatch processing of
the same frame (src/ocpp_api.py 365-427).  The processing outcome does not
depend on which forwards succeeded. -/
def serverStep (clients : List Nat) (sender : Nat) (sendOk : Nat → Bool)
    (raw : String) (boundUid : Option Json) (now : DateTime)
    (inp : Except String Json) : List (Nat × String) × Outcome :=
  (forwardAll clients sender sendOk raw, handleFrame boundUid now inp)

end OcppApi

/-- A concrete timestamp, `2025-10-12T09:30:05.123456`, used to
instantiate the handlers' clock in concrete scenarios. -/
def dt0 : Ocpp.DateTime := ⟨2025, 10, 12, 9, 30, 5, 123456⟩

/-- C1 counterexample: starting from the initial state, one accepted
StartTransaction puts the connector in `Charging`; a StartTransaction Call
received by the central system at that point (its handler reads no state)
is nevertheless answered with `id_tag_info` status `Accepted` — not a
rejected status as the claim requires. -/
theorem C1_counterexample :
    (Csms.start_transaction Csms.initState "TAG1" "2025-01-01T00:00:00").1.status
      = Ocpp.ChargePointStatus.charging ∧
    (Central.on_start_transaction 1 "TAG1" 0 "2025-01-01T00:00:01").id_tag_info_status
      = Ocpp.AuthorizationStatus.accepted :=
  ⟨rfl, rfl⟩

/-- C1 amended: a StartTransaction initiated while the connector is
`Charging` is never sent — `MyChargePoint.start_transaction` returns
`None` and leaves the state, the existing `transactionId` included,
unchanged; and the central system answers every StartTransaction Call it
does receive with status `Accepted`, never rejecting. -/
theorem C1_amended_thm (st : Csms.CPState) (id_tag ts : String)
    (h : st.status = Ocpp.ChargePointStatus.charging) :
    Csms.start_transaction st id_tag ts = (st, none) ∧
    ∀ (c m : Int) (tag t : String),
      (Central.on_start_transaction c tag m t).id_tag_info_status
        = Ocpp.AuthorizationStatus.accepted := by
  constructor
  · unfold Csms.start_transaction
    rw [h]
    simp
  · intro c m tag t
    rfl

/-- C1 witness: the amended theorem at the concrete charging state
`(transaction_id = 1, connector 1, Charging)`. -/
theorem C1_amended_witness :
    Csms.start_transaction ⟨some 1, 1, Ocpp.ChargePointStatus.charging⟩ "TAG1" "t0"
      = (⟨some 1, 1, Ocpp.ChargePointStatus.charging⟩, none) ∧
    ∀ (c m : Int) (tag t : String),
      (Central.on_start_transaction c tag m t).id_tag_info_status
        = Ocpp.AuthorizationStatus.accepted :=
  C1_amended_thm ⟨some 1, 1, Ocpp.ChargePointStatus.charging⟩ "TAG1" "t0" rfl

/-- C3: both StartTransaction handlers — `CentralSystem.on_start_transaction`
and the `ocpp_api` dispatch — answer every request, whatever its connector
id or its position in history (the handlers read and write no state, so
the response is a function of the request alone), with
`transaction_id = 1`. -/
theorem C3_thm :
    ∀ (connector_id meter_start : Int) (id_tag timestamp : String)
      (payload : Ocpp.Json) (now : Ocpp.DateTime),
      (Central.on_start_transaction connector_id id_tag meter_start
          timestamp).transaction_id = 1 ∧
      OcppApi.lookupField
          (OcppApi.dispatchOcppApi "StartTransaction" payload now)
          "transactionId" = some (Ocpp.Json.num 1) := by
  intro c m tag ts p now
  exact ⟨rfl, rfl⟩

/-- C4 counterexample: the state `(transaction_id = 1, connector 1,
Charging)` satisfies the invariant, and a `Reset(Soft)` received there
moves the status to `Available` while leaving `transaction_id` set,
breaking the invariant — so the invariant is not preserved by every
operation. -/
theorem C4_counterexample :
    Csms.Inv ⟨some 1, 1, Ocpp.ChargePointStatus.charging⟩ ∧
    (Csms.on_reset ⟨some 1, 1, Ocpp.ChargePointStatus.charging⟩
        Ocpp.ResetType.soft).1
      = ⟨some 1, 1, Ocpp.ChargePointStatus.available⟩ ∧
    ¬ Csms.Inv (Csms.on_reset ⟨some 1, 1, Ocpp.ChargePointStatus.charging⟩
        Ocpp.ResetType.soft).1 :=
  ⟨by decide, rfl, by decide⟩

/-- C4 amended: the invariant `transactionId set iff status = Charging`
holds initially and is preserved by `start_transaction`,
`stop_transaction` and `on_remote_stop_transaction`, and a StopTransaction
(always accepted by the central system) clears `transactionId` and returns
the status to `Available`; but `on_reset(Soft)` and
`on_change_availability` received while `Charging` change the status
without clearing `transactionId` and so break the invariant. -/
theorem C4_amended_thm (st : Csms.CPState) (txn : Int) (id_tag ts : String)
    (h : Csms.Inv st) :
    Csms.Inv Csms.initState ∧
    Csms.Inv (Csms.start_transaction st id_tag ts).1 ∧
    Csms.stop_transaction st txn id_tag ts
      = ⟨none, st.connector_id, Ocpp.ChargePointStatus.available⟩ ∧
    Csms.Inv (Csms.stop_transaction st txn id_tag ts) ∧
    Csms.Inv (Csms.on_remote_stop_transaction st txn ts).1 ∧
    ¬ Csms.Inv (Csms.on_reset ⟨some 1, 1, Ocpp.ChargePointStatus.charging⟩
        Ocpp.ResetType.soft).1 ∧
    ¬ Csms.Inv (Csms.on_change_availability
        ⟨some 1, 1, Ocpp.ChargePointStatus.charging⟩ 1
        Ocpp.AvailabilityType.operative).1 := by
  have hstop : Csms.stop_transaction st txn id_tag ts
      = ⟨none, st.connector_id, Ocpp.ChargePointStatus.available⟩ := rfl
  refine ⟨by decide, ?_, hstop, ?_, ?_, by decide, by decide⟩
  · by_cases hs : st.status = Ocpp.ChargePointStatus.available
    · simp [Csms.start_transaction, hs, Central.on_start_transaction, Csms.Inv]
    · simp [Csms.start_transaction, hs]
      exact h
  · rw [hstop]
    simp [Csms.Inv]
  · unfold Csms.on_remote_stop_transaction
    by_cases ht : st.transaction_id = some txn
    · rw [if_pos ht]
      show Csms.Inv
        (⟨none, st.connector_id, Ocpp.ChargePointStatus.available⟩ : Csms.CPState)
      simp [Csms.Inv]
    · rw [if_neg ht]
      exact h

/-- C4 witness: the amended theorem at the charging state
`(transaction_id = 2, connector 1, Charging)` with a matching stop id. -/
theorem C4_amended_witness :
    Csms.Inv Csms.initState ∧
    Csms.Inv (Csms.start_transaction ⟨some 2, 1, Ocpp.ChargePointStatus.charging⟩
        "TAG1" "t0").1 ∧
    Csms.stop_transaction ⟨some 2, 1, Ocpp.ChargePointStatus.charging⟩ 2 "TAG1" "t0"
      = ⟨none, 1, Ocpp.ChargePointStatus.available⟩ ∧
    Csms.Inv (Csms.stop_transaction ⟨some 2, 1, Ocpp.ChargePointStatus.charging⟩
        2 "TAG1" "t0") ∧
    Csms.Inv (Csms.on_remote_stop_transaction
        ⟨some 2, 1, Ocpp.ChargePointStatus.charging⟩ 2 "t0").1 ∧
    ¬ Csms.Inv (Csms.on_reset ⟨some 1, 1, Ocpp.ChargePointStatus.charging⟩
        Ocpp.ResetType.soft).1 ∧
    ¬ Csms.Inv (Csms.on_change_availability
        ⟨some 1, 1, Ocpp.ChargePointStatus.charging⟩ 1
        Ocpp.AvailabilityType.operative).1 :=
  C4_amended_thm ⟨some 2, 1, Ocpp.ChargePointStatus.charging⟩ 2 "TAG1" "t0"
    (by decide)

/-- C5 counterexample: with the connector `Charging` under transaction 1,
a StopTransaction with the non-matching id 2 is answered `Accepted` by the
central system, and the client's `stop_transaction` then clears the
transaction and moves the status to `Available` — neither a rejection nor
a preserved `Charging` status. -/
theorem C5_counterexample :
    (Central.on_stop_transaction 2 "TAG1" 100 "t0").id_tag_info_status
      = Ocpp.AuthorizationStatus.accepted ∧
    Csms.stop_transaction ⟨some 1, 1, Ocpp.ChargePointStatus.charging⟩ 2 "TAG1" "t0"
      = ⟨none, 1, Ocpp.ChargePointStatus.available⟩ :=
  ⟨rfl, rfl⟩

/-- C5 amended: only `on_remote_stop_transaction` checks the id — a
RemoteStopTransaction whose `transactionId` does not match the connector's
current one is answered `Rejected` with the whole state (its `Charging`
status included) unchanged; a direct StopTransaction, by contrast, is
always answered `Accepted` by the central system regardless of matching. -/
theorem C5_amended_thm (st : Csms.CPState) (txn : Int) (ts : String)
    (h : st.transaction_id ≠ some txn) :
    Csms.on_remote_stop_transaction st txn ts
      = (st, Ocpp.RemoteStartStopStatus.rejected) ∧
    ∀ (t m : Int) (tag ts2 : String),
      (Central.on_stop_transaction t tag m ts2).id_tag_info_status
        = Ocpp.AuthorizationStatus.accepted := by
  constructor
  · unfold Csms.on_remote_stop_transaction
    simp [h]
  · intro t m tag ts2
    rfl

/-- C5 witness: the amended theorem at the charging state with open
transaction 1 and the non-matching requested id 2. -/
theorem C5_amended_witness :
    Csms.on_remote_stop_transaction ⟨some 1, 1, Ocpp.ChargePointStatus.charging⟩ 2 "t0"
      = (⟨some 1, 1, Ocpp.ChargePointStatus.charging⟩,
         Ocpp.RemoteStartStopStatus.rejected) ∧
    ∀ (t m : Int) (tag ts2 : String),
      (Central.on_stop_transaction t tag m ts2).id_tag_info_status
        = Ocpp.AuthorizationStatus.accepted :=
  C5_amended_thm ⟨some 1, 1, Ocpp.ChargePointStatus.charging⟩ 2 "t0" (by decide)

/-- C6 counterexample: a `Reset(Soft)` received while `Charging` (open
transaction 5) is not a no-op — it moves the status to `Available`. -/
theorem C6_counterexample :
    (Csms.on_reset ⟨some 5, 1, Ocpp.ChargePointStatus.charging⟩
        Ocpp.ResetType.soft).1
      = ⟨some 5, 1, Ocpp.ChargePointStatus.available⟩ ∧
    (⟨some 5, 1, Ocpp.ChargePointStatus.available⟩ : Csms.CPState)
      ≠ ⟨some 5, 1, Ocpp.ChargePointStatus.charging⟩ :=
  ⟨rfl, by decide⟩

/-- C6 amended: `on_reset` on a `Soft` request sets the status to
`Available` unconditionally — also while `Charging`, where it leaves
`transactionId` set — while any other reset type leaves the state
unchanged; the response is always `Accepted`. -/
theorem C6_amended_thm :
    ∀ (st : Csms.CPState) (t : Ocpp.ResetType),
      (Csms.on_reset st Ocpp.ResetType.soft).1
        = ⟨st.transaction_id, st.connector_id, Ocpp.ChargePointStatus.available⟩ ∧
      Csms.on_reset st Ocpp.ResetType.hard = (st, Ocpp.ResetStatus.accepted) ∧
      (Csms.on_reset st t).2 = Ocpp.ResetStatus.accepted := by
  intro st t
  refine ⟨rfl, rfl, ?_⟩
  cases t <;> rfl

/-- C10: `on_get_configuration` answers with the single example entry
exactly when the optional key filter is absent (`None`) or the empty
list, and with the empty `configuration_key` list exactly when a
non-empty filter is supplied — the filter's contents are never consulted.
The same for the `ocpp_api` dispatch of GetConfiguration. -/
theorem C10_thm :
    ∀ (key : Option (List String)) (now : Ocpp.DateTime) (k : String)
      (ks : List String),
      (Central.on_get_configuration key
          = [{ key := "example_key", value := "example_value" }]
        ↔ (key = none ∨ key = some [])) ∧
      (Central.on_get_configuration key = [] ↔ ∃ x xs, key = some (x :: xs)) ∧
      OcppApi.dispatchOcppApi "GetConfiguration"
          (Ocpp.Json.obj [("key", Ocpp.Json.arr ((k :: ks).map Ocpp.Json.str))]) now
        = Ocpp.Json.obj [("configurationKey", Ocpp.Json.arr [])] ∧
      OcppApi.dispatchOcppApi "GetConfiguration" (Ocpp.Json.obj []) now
        = Ocpp.Json.obj [("configurationKey", OcppApi.exampleConfigJson)] := by
  intro key now k ks
  refine ⟨?_, ?_, rfl, rfl⟩
  · rcases key with _ | (_ | ⟨x, xs⟩) <;>
      simp [Central.on_get_configuration, Central.pyTruthyKey]
  · rcases key with _ | (_ | ⟨x, xs⟩) <;>
      simp [Central.on_get_configuration, Central.pyTruthyKey]

/-- Helper: an error reply emitted by the `except` branch always has the
`errorResponse` shape for some unique id. -/
theorem finishError_reply (bu rec : Option Ocpp.Json) (msg : String)
    (r : Ocpp.Json)
    (h : OcppApi.finishError bu rec msg = OcppApi.Outcome.reply r) :
    ∃ uid, r = OcppApi.errorResponse uid msg := by
  unfold OcppApi.finishError at h
  rcases rec with _ | u
  · rcases bu with _ | u
    · simp at h
    · exact ⟨u, by injection h with h2; exact h2.symm⟩
  · exact ⟨u, by injection h with h2; exact h2.symm⟩

/-- Helper: `processParsed` only succeeds on an array of at least four
elements, i.e. exactly when the tuple unpacking bound `unique_id`. -/
theorem processParsed_ok_uid (message : Ocpp.Json) (now : Ocpp.DateTime)
    (resp : Ocpp.Json)
    (h : OcppApi.processParsed message now = Except.ok resp) :
    OcppApi.recoveredUidJ message ≠ none := by
  cases message with
  | null => simp [OcppApi.processParsed] at h
  | bool b => simp [OcppApi.processParsed] at h
  | num n => simp [OcppApi.processParsed] at h
  | str s => simp [OcppApi.processParsed] at h
  | obj kvs => simp [OcppApi.processParsed] at h
  | arr elems =>
    rcases elems with _ | ⟨a, _ | ⟨b, _ | ⟨c, _ | ⟨d, rest⟩⟩⟩⟩
    · simp [OcppApi.processParsed] at h
    · simp [OcppApi.processParsed] at h
    · simp [OcppApi.processParsed] at h
    · simp [OcppApi.processParsed] at h
    · simp [OcppApi.recoveredUidJ]

/-- C2 counterexample: the malformed frame `[5, "1", "Foo", {}]` (its
message-type tag is not 2) has a recoverable uniqueId `"1"`, and the code
replies with the four-element tag-3 frame
`[3, "1", "FormationViolation", ("message": ...)]` — not the five-element
tag-4 CallError `[4, "1", "FormationViolation", "...", ()]` the claim
prescribes. -/
theorem C2_counterexample :
    OcppApi.handleFrame none dt0 (Except.ok (Ocpp.Json.arr
        [Ocpp.Json.num 5, Ocpp.Json.str "1", Ocpp.Json.str "Foo",
         Ocpp.Json.obj []]))
      = OcppApi.Outcome.reply (Ocpp.Json.arr
          [Ocpp.Json.num 3, Ocpp.Json.str "1",
           Ocpp.Json.str "FormationViolation",
           Ocpp.Json.obj [("message",
             Ocpp.Json.str "Only CALL messages are supported")]]) ∧
    ¬ ∃ m : String,
        (Ocpp.Json.arr [Ocpp.Json.num 3, Ocpp.Json.str "1",
           Ocpp.Json.str "FormationViolation",
           Ocpp.Json.obj [("message",
             Ocpp.Json.str "Only CALL messages are supported")]])
        = Ocpp.Json.arr [Ocpp.Json.num 4, Ocpp.Json.str "1",
            Ocpp.Json.str "FormationViolation", Ocpp.Json.str m,
            Ocpp.Json.obj []] := by
  refine ⟨rfl, ?_⟩
  rintro ⟨m, hm⟩
  simp at hm

/-- C2 amended: every reply the `except` branch of `websocket_endpoint`
sends for a malformed frame is the four-element tag-3 frame
`[3, uniqueId, "FormationViolation", ("message": str(e))]`, where the
uniqueId is the one recovered from the current frame or left bound by an
earlier one; and when no uniqueId was ever bound, evaluating the reply
raises `NameError` and the connection is closed without any reply frame. -/
theorem C2_amended_thm :
    ∀ (boundUid : Option Ocpp.Json) (now : Ocpp.DateTime)
      (inp : Except String Ocpp.Json),
      (∀ r, OcppApi.handleFrame boundUid now inp = OcppApi.Outcome.reply r →
        ∃ uid msg, r = Ocpp.Json.arr [Ocpp.Json.num 3, uid,
          Ocpp.Json.str "FormationViolation",
          Ocpp.Json.obj [("message", Ocpp.Json.str msg)]]) ∧
      (OcppApi.recoveredUid inp = none → boundUid = none →
        OcppApi.handleFrame boundUid now inp = OcppApi.Outcome.closed) := by
  intro bu now inp
  constructor
  · intro r h
    cases inp with
    | error m =>
      obtain ⟨uid, hu⟩ := finishError_reply bu none m r h
      exact ⟨uid, m, hu⟩
    | ok message =>
      cases hp : OcppApi.processParsed message now with
      | ok resp =>
        simp only [OcppApi.handleFrame, hp] at h
        exact OcppApi.Outcome.noConfusion h
      | error msg =>
        simp only [OcppApi.handleFrame, hp] at h
        obtain ⟨uid, hu⟩ := finishError_reply bu _ msg r h
        exact ⟨uid, msg, hu⟩
  · intro h1 h2
    cases inp with
    | error m => subst h2; rfl
    | ok message =>
      have hr : OcppApi.recoveredUidJ message = none := by
        simpa [OcppApi.recoveredUid] using h1
      cases hp : OcppApi.processParsed message now with
      | ok resp => exact absurd hr (processParsed_ok_uid message now resp hp)
      | error msg =>
        simp only [OcppApi.handleFrame, hp, hr, h2]
        rfl

/-- C7 counterexample: the Call `[2, "7", "FooBar", {}]` names an action
with no registered handler; the code's reply is the tag-3 frame
`[3, "7", "FormationViolation", ("message": "Unsupported action:
FooBar")]`, never a `NotImplemented` CallError `[4, "7",
"NotImplemented", ...]`. -/
theorem C7_counterexample :
    OcppApi.handleFrame none dt0 (Except.ok (Ocpp.Json.arr
        [Ocpp.Json.num 2, Ocpp.Json.str "7", Ocpp.Json.str "FooBar",
         Ocpp.Json.obj []]))
      = OcppApi.Outcome.reply (Ocpp.Json.arr
          [Ocpp.Json.num 3, Ocpp.Json.str "7",
           Ocpp.Json.str "FormationViolation",
           Ocpp.Json.obj [("message",
             Ocpp.Json.str "Unsupported action: FooBar")]]) ∧
    ¬ ∃ desc details,
        OcppApi.handleFrame none dt0 (Except.ok (Ocpp.Json.arr
            [Ocpp.Json.num 2, Ocpp.Json.str "7", Ocpp.Json.str "FooBar",
             Ocpp.Json.obj []]))
          = OcppApi.Outcome.reply (Ocpp.Json.arr
              [Ocpp.Json.num 4, Ocpp.Json.str "7",
               Ocpp.Json.str "NotImplemented", desc, details]) := by
  refine ⟨rfl, ?_⟩
  rintro ⟨desc, details, h⟩
  have h2 : OcppApi.Outcome.reply (Ocpp.Json.arr
      [Ocpp.Json.num 3, Ocpp.Json.str "7",
       Ocpp.Json.str "FormationViolation",
       Ocpp.Json.obj [("message",
         Ocpp.Json.str "Unsupported action: FooBar")]])
    = OcppApi.Outcome.reply (Ocpp.Json.arr
        [Ocpp.Json.num 4, Ocpp.Json.str "7",
         Ocpp.Json.str "NotImplemented", desc, details]) := h
  simp at h2

/-- C7 amended: an inbound Call whose action has no registered request
model makes `websocket_endpoint` raise
`ValueError("Unsupported action: ...")`, and the sender receives the
tag-3, four-element frame `[3, uniqueId, "FormationViolation",
("message": "Unsupported action: <action>")]` — no `NotImplemented`
CallError is ever produced (nothing on the inbound path consults any
correlation state). -/
theorem C7_amended_thm (boundUid : Option Ocpp.Json) (now : Ocpp.DateTime)
    (uid payload : Ocpp.Json) (more : List Ocpp.Json) (a : String)
    (h : OcppApi.supportedActions.contains a = false) :
    OcppApi.handleFrame boundUid now
        (Except.ok (Ocpp.Json.arr (Ocpp.Json.num 2 :: uid ::
          Ocpp.Json.str a :: payload :: more)))
      = OcppApi.Outcome.reply
          (OcppApi.errorResponse uid ("Unsupported action: " ++ a)) := by
  have hlen : ¬ (Ocpp.Json.num 2 :: uid :: Ocpp.Json.str a ::
      payload :: more).length < 3 := by
    simp only [List.length_cons]
    omega
  have hna : a ∉ OcppApi.supportedActions := by
    simpa using h
  have hp : OcppApi.processParsed
      (Ocpp.Json.arr (Ocpp.Json.num 2 :: uid :: Ocpp.Json.str a ::
        payload :: more)) now
      = Except.error ("Unsupported action: " ++ a) := by
    unfold OcppApi.processParsed
    simp [OcppApi.isNum2, hlen, hna, OcppApi.actionError]
  simp only [OcppApi.handleFrame, hp, OcppApi.recoveredUidJ,
    OcppApi.finishError]

/-- C7 witness: the amended theorem at the concrete unregistered action
`MadeUp` with uniqueId `"9"`. -/
theorem C7_amended_witness :
    OcppApi.handleFrame none dt0
        (Except.ok (Ocpp.Json.arr (Ocpp.Json.num 2 :: Ocpp.Json.str "9" ::
          Ocpp.Json.str "MadeUp" :: Ocpp.Json.obj [] :: [])))
      = OcppApi.Outcome.reply
          (OcppApi.errorResponse (Ocpp.Json.str "9")
            ("Unsupported action: " ++ "MadeUp")) :=
  C7_amended_thm none dt0 (Ocpp.Json.str "9") (Ocpp.Json.obj []) [] "MadeUp"
    (by decide)

/-- Helper: membership characterization of the relay's delivery list. -/
theorem forwardAll_mem (clients : List Nat) (sender c : Nat)
    (sendOk : Nat → Bool) (raw s : String) :
    (c, s) ∈ OcppApi.forwardAll clients sender sendOk raw ↔
      (c ∈ clients ∧ c ≠ sender ∧ sendOk c = true ∧ s = raw) := by
  induction clients with
  | nil => simp [OcppApi.forwardAll]
  | cons d rest ih =>
    show (c, s) ∈ (if d ≠ sender then
        (if sendOk d then [(d, raw)] else []) ++
          OcppApi.forwardAll rest sender sendOk raw
      else OcppApi.forwardAll rest sender sendOk raw) ↔ _
    split_ifs with hd hs
    · simp only [List.singleton_append, List.mem_cons, ih, Prod.mk.injEq]
      constructor
      · rintro (⟨rfl, rfl⟩ | ⟨hc, hns, hok, rfl⟩)
        · exact ⟨Or.inl rfl, hd, hs, rfl⟩
        · exact ⟨Or.inr hc, hns, hok, rfl⟩
      · rintro ⟨rfl | hc, hns, hok, rfl⟩
        · exact Or.inl ⟨rfl, rfl⟩
        · exact Or.inr ⟨hc, hns, hok, rfl⟩
    · simp only [List.nil_append, ih, List.mem_cons]
      constructor
      · rintro ⟨hc, hns, hok, rfl⟩
        exact ⟨Or.inr hc, hns, hok, rfl⟩
      · rintro ⟨rfl | hc, hns, hok, rfl⟩
        · exact absurd hok hs
        · exact ⟨hc, hns, hok, rfl⟩
    · have hds : d = sender := not_not.mp hd
      simp only [ih, List.mem_cons]
      constructor
      · rintro ⟨hc, hns, hok, rfl⟩
        exact ⟨Or.inr hc, hns, hok, rfl⟩
      · rintro ⟨rfl | hc, hns, hok, rfl⟩
        · exact absurd hds hns
        · exact ⟨hc, hns, hok, rfl⟩

/-- C8: the relay forwards the raw inbound frame unmodified to exactly
the connected clients other than the sender whose send succeeds — never
back to the sender; a failed forward to one peer leaves every other
reachable peer's delivery in place; and the processing outcome of the
original message is the same whatever sends fail (forwarding failures
never abort it). -/
theorem C8_thm :
    ∀ (clients : List Nat) (sender : Nat) (sendOk sendOk2 : Nat → Bool)
      (raw : String) (boundUid : Option Ocpp.Json) (now : Ocpp.DateTime)
      (inp : Except String Ocpp.Json),
      (∀ p ∈ OcppApi.forwardAll clients sender sendOk raw,
        p.1 ≠ sender ∧ p.2 = raw) ∧
      (∀ c ∈ clients, c ≠ sender → sendOk c = true →
        (c, raw) ∈ OcppApi.forwardAll clients sender sendOk raw) ∧
      (OcppApi.serverStep clients sender sendOk raw boundUid now inp).2
        = (OcppApi.serverStep clients sender sendOk2 raw boundUid now inp).2 := by
  intro clients sender sendOk sendOk2 raw bu now inp
  refine ⟨?_, ?_, rfl⟩
  · rintro ⟨c, s⟩ hp
    have hc := (forwardAll_mem clients sender c sendOk raw s).1 hp
    exact ⟨hc.2.1, hc.2.2.2⟩
  · intro c hc hns hok
    exact (forwardAll_mem clients sender c sendOk raw raw).2 ⟨hc, hns, hok, rfl⟩

/-- Helper: the digit characters are digits. -/
theorem digitChar_isDigit : ∀ k, k < 10 → (Ocpp.digitChar k).isDigit = true := by
  decide

/-- Helper: every zero-padded position of `isoformat` holds a digit. -/
theorem mod10_digit (m : Nat) : (Ocpp.digitChar (m % 10)).isDigit = true :=
  digitChar_isDigit _ (Nat.mod_lt _ (by norm_num))

/-- Helper: the string `datetime.isoformat()` builds always matches the
ISO-8601 combined date-time shape. -/
theorem isISO8601_isoformat (d : Ocpp.DateTime) :
    Ocpp.isISO8601 (Ocpp.isoformat d) = true := by
  unfold Ocpp.isoformat Ocpp.isISO8601 Ocpp.isoChars Ocpp.pad4 Ocpp.pad2
    Ocpp.pad6
  by_cases hm : d.microsecond = 0 <;>
    simp [hm, Ocpp.isoTail, mod10_digit]

/-- C9: an inbound `[2, "1", "Heartbeat", ()]` Call is answered (and the
answer broadcast, the sender included) with `[3, "1", ("currentTime":
isoformat(now))]` — the same uniqueId, tag 3, and a `currentTime` field
holding an ISO-8601 timestamp. -/
theorem C9_thm (boundUid : Option Ocpp.Json) (d : Ocpp.DateTime)
    (h : Ocpp.ValidDT d) :
    OcppApi.handleFrame boundUid d
        (Except.ok (Ocpp.Json.arr [Ocpp.Json.num 2, Ocpp.Json.str "1",
          Ocpp.Json.str "Heartbeat", Ocpp.Json.obj []]))
      = OcppApi.Outcome.broadcastResponse (Ocpp.Json.arr
          [Ocpp.Json.num 3, Ocpp.Json.str "1",
           Ocpp.Json.obj [("currentTime",
             Ocpp.Json.str (Ocpp.isoformat d))]]) ∧
    Ocpp.isISO8601 (Ocpp.isoformat d) = true :=
  ⟨rfl, isISO8601_isoformat d⟩

/-- C9 witness: the theorem at the concrete clock `dt0`. -/
theorem C9_witness :
    OcppApi.handleFrame none dt0
        (Except.ok (Ocpp.Json.arr [Ocpp.Json.num 2, Ocpp.Json.str "1",
          Ocpp.Json.str "Heartbeat", Ocpp.Json.obj []]))
      = OcppApi.Outcome.broadcastResponse (Ocpp.Json.arr
          [Ocpp.Json.num 3, Ocpp.Json.str "1",
           Ocpp.Json.obj [("currentTime",
             Ocpp.Json.str (Ocpp.isoformat dt0))]]) ∧
    Ocpp.isISO8601 (Ocpp.isoformat dt0) = true :=
  C9_thm none dt0 (by decide)
